import Mathlib

/-!
Verification of the `create_oa_submissions` management command and the staff-area
permission decorators of the edx-ora2 repository.

The command (`openassessment/management/commands/create_oa_submissions.py`) is a
straight-line script issuing calls to external services (submissions, workflow,
peer, self).  We embed it as a pure state-passing program that records every
external service call as an `Event` in a trace, in call order.  Sources of
randomness (`uuid4().hex`, the `loremipsum` text and word generators) are
modelled by an oracle `Env`; each text-producing call consumes the next value of
a counter, so two runs with the same oracle are identical and arbitrary oracles
cover every possible random outcome.  The external submission service assigns
fresh UUIDs; we model a submission's UUID as the ordinal of its
`create_submission` call (a `Nat`), which is faithful to freshness.

The decorators (`openassessment/xblock/staff_area_mixin.py`) are embedded as
higher-order functions over an xblock record of permission flags; Python's
`KeyError` on a missing `permission_errors` key is modelled with `Except`.
-/

/-- Serialized StudentItem dict: `{'student_id', 'course_id', 'item_id', 'item_type'}`. -/
structure StudentItem where
  student_id : String
  course_id : String
  item_id : String
  item_type : String
deriving DecidableEq, Repr

/-- One option of a rubric criterion (`_dummy_rubric`, inner loop). -/
structure RubricOption where
  order_num : Nat
  points : Nat
  name : String
  explanation : String
deriving DecidableEq, Repr, Inhabited

/-- One rubric criterion (`_dummy_rubric`, outer loop). -/
structure Criterion where
  name : String
  prompt : String
  order_num : Nat
  options : List RubricOption
deriving DecidableEq, Repr

/-- A rubric: `{'criteria': [...]}`. -/
structure Rubric where
  criteria : List Criterion
deriving DecidableEq, Repr

/-- Per-step workflow requirements: `{'must_grade': _, 'must_be_graded_by': _}`. -/
structure StepRequirements where
  must_grade : Nat
  must_be_graded_by : Nat
deriving DecidableEq, Repr

/-- A Python dict keyed by strings, as an insertion-ordered association list. -/
abbrev StrDict := List (String × String)

/-- Python dict assignment `d[k] = v`: overwrite if the key is present,
otherwise append at the end (insertion order). -/
def dictInsert (d : StrDict) (k v : String) : StrDict :=
  if d.any (fun p => p.1 = k) then
    d.map (fun p => if p.1 = k then (k, v) else p)
  else
    d ++ [(k, v)]

/-- Python dict read `d[k]` as an `Option` (`none` models `KeyError`). -/
def dictLookup (d : StrDict) (k : String) : Option String :=
  (d.find? (fun p => p.1 = k)).map (fun p => p.2)

/-- One external service call made by the command, in the order the script
issues them.  A submission's UUID is the ordinal of its `createSubmission`
event among all `createSubmission` events of the trace. -/
inductive Event where
  | createSubmission (student_item : StudentItem) (answerText : String)
  | createWorkflow (submission_uuid : Nat) (steps : List String)
  | updateFromAssessments (submission_uuid : Nat)
      (requirements : List (String × StepRequirements))
  | createPeerWorkflowItem (scorer_submission_uuid : Nat) (submission_uuid : Nat)
  | createPeerAssessment (scorer_submission_uuid : Nat) (scorer_id : String)
      (options_selected : StrDict) (criterion_feedback : StrDict)
      (overall_feedback : String) (rubric : Rubric) (num_required_grades : Nat)
  | createSelfAssessment (submission_uuid : Nat) (student_id : String)
      (options_selected : StrDict) (rubric : Rubric)
deriving DecidableEq, Repr

/-- Oracle for the command's sources of randomness.
`uuidHex k` is `uuid4().hex` for the k-th primary submission;
`text n` is the n-th string produced by a `loremipsum` paragraph/sentence
call (each call consumes one counter position);
`words k i` is entry `i` of the word list of the k-th `_dummy_rubric` call. -/
structure Env where
  uuidHex : Nat → String
  text : Nat → String
  words : Nat → Nat → String

/-- The command's running state: the trace of service calls issued so far,
the accumulated `_student_items` list, the number of submissions created so
far (the next fresh submission UUID), and the randomness counter. -/
structure GenState where
  trace : List Event
  student_items : List StudentItem
  subCtr : Nat
  textCtr : Nat
deriving DecidableEq, Repr

/-- Append one service call to the trace. -/
def emit (s : GenState) (e : Event) : GenState :=
  { s with trace := s.trace ++ [e] }

/-- Consume the next random text (one `loremipsum` paragraph/sentence call). -/
def getText (env : Env) (s : GenState) : String × GenState :=
  (env.text s.textCtr, { s with textCtr := s.textCtr + 1 })

/-- The module-level constant `STEPS = ['peer', 'self']`. -/
def STEPS : List String := ["peer", "self"]

namespace Command

/-- Constant `NUM_PEER_ASSESSMENTS = 3`: peer assessments per submission. -/
def NUM_PEER_ASSESSMENTS : Nat := 3

/-- Constant `NUM_CRITERIA = 5`: criteria in each rubric. -/
def NUM_CRITERIA : Nat := 5

/-- Constant `NUM_OPTIONS = 5`: options per criterion. -/
def NUM_OPTIONS : Nat := 5

end Command

/-- The dict `{'peer': {'must_grade': 1, 'must_be_graded_by': 1}}` passed to
`workflow_api.update_from_assessments`. -/
def peerRequirements : List (String × StepRequirements) :=
  [("peer", { must_grade := 1, must_be_graded_by := 1 })]

/-- Embedding of `Command._create_dummy_submission`: generate an answer text, create the
submission, create its workflow over `STEPS`, update its requirements, and
return the new submission's UUID. -/
def create_dummy_submission (env : Env) (student_item : StudentItem)
    (s : GenState) : Nat × GenState :=
  let (answerText, s) := getText env s
  let uuid := s.subCtr
  let s : GenState :=
    { s with
      trace := s.trace ++ [Event.createSubmission student_item answerText],
      subCtr := s.subCtr + 1 }
  let s := emit s (Event.createWorkflow uuid STEPS)
  let s := emit s (Event.updateFromAssessments uuid peerRequirements)
  (uuid, s)

/-- Embedding of `Command._dummy_rubric`: build a rubric of `NUM_CRITERIA` criteria, each
with `NUM_OPTIONS` options whose `points` equal their ordinal, and record in
`options_selected` each criterion's name mapped to its option 0's name.
`widx` identifies this call's `loremipsum.Generator().words` list in the
oracle. -/
def dummy_rubric (env : Env) (widx : Nat) (s : GenState) :
    (Rubric × StrDict) × GenState :=
  let words := env.words widx
  let (rubric, options_selected, s) :=
    (List.range Command.NUM_CRITERIA).foldl
      (fun (acc : Rubric × StrDict × GenState) criteria_num =>
        let (rubric, options_selected, s) := acc
        let (prompt, s) := getText env s
        let (options, s) :=
          (List.range Command.NUM_OPTIONS).foldl
            (fun (acc2 : List RubricOption × GenState) option_num =>
              let (options, s) := acc2
              let (explanation, s) := getText env s
              (options ++
                [{ order_num := option_num, points := option_num,
                   name := words option_num, explanation := explanation }], s))
            ([], s)
        let criterion : Criterion :=
          { name := words criteria_num, prompt := prompt,
            order_num := criteria_num, options := options }
        (⟨rubric.criteria ++ [criterion]⟩,
         dictInsert options_selected criterion.name
           ((criterion.options.getD 0 default).name),
         s))
      (⟨[]⟩, [], s)
  ((rubric, options_selected), s)

/-- The body of `Command.handle`'s `for sub_num in range(num_submissions)`
loop: create the primary submission, record its student item, generate the
rubric, create the three peer scorers' submissions/workflow items/assessments,
then the self-assessment. -/
def handleIter (env : Env) (course_id item_id : String) (s : GenState)
    (sub_num : Nat) : GenState :=
  let student_item : StudentItem :=
    { student_id := (env.uuidHex sub_num).take 10, course_id := course_id,
      item_id := item_id, item_type := "openassessment" }
  let (submission_uuid, s) := create_dummy_submission env student_item s
  let s : GenState := { s with student_items := s.student_items ++ [student_item] }
  let res := dummy_rubric env sub_num s
  let rubric := res.1.1
  let options_selected := res.1.2
  let s := res.2
  let s :=
    (List.range Command.NUM_PEER_ASSESSMENTS).foldl
      (fun (s : GenState) num =>
        let scorer_id := "test_" ++ toString num
        let scorer_student_item := { student_item with student_id := scorer_id }
        let res2 := create_dummy_submission env scorer_student_item s
        let scorer_submission_uuid := res2.1
        let s := res2.2
        let s := emit s (Event.createPeerWorkflowItem scorer_submission_uuid submission_uuid)
        let (overall_feedback, s) := getText env s
        emit s (Event.createPeerAssessment scorer_submission_uuid scorer_id
          options_selected [] overall_feedback rubric Command.NUM_PEER_ASSESSMENTS))
      s
  emit s (Event.createSelfAssessment submission_uuid student_item.student_id
    options_selected rubric)

/-- The initial state: nothing created yet. -/
def initState : GenState := { trace := [], student_items := [], subCtr := 0, textCtr := 0 }

/-- The main loop of `Command.handle` after argument parsing. -/
def runSubmissions (env : Env) (course_id item_id : String)
    (num_submissions : Nat) : GenState :=
  (List.range num_submissions).foldl (handleIter env course_id item_id) initState

/-- Python `int(s)` on a decimal string: optional surrounding whitespace,
optional sign, at least one digit; `none` models `ValueError`. -/
def pyInt (str_arg : String) : Option Int :=
  match ((str_arg.toList.dropWhile Char.isWhitespace).reverse.dropWhile
      Char.isWhitespace).reverse with
  | [] => none
  | c :: rest =>
    let signed : Bool × List Char :=
      if c = '-' then (true, rest)
      else if c = '+' then (false, rest) else (false, c :: rest)
    if signed.2 ≠ [] ∧ signed.2.all Char.isDigit then
      let n : Nat := signed.2.foldl (fun a d => a * 10 + (d.toNat - 48)) 0
      some (if signed.1 then -(n : Int) else (n : Int))
    else none

/-- Embedding of `Command.handle`: validate the positional arguments, then run the main
loop.  `Except.error` models `CommandError` raised before any service call;
a negative count makes `range(num_submissions)` empty, hence `Int.toNat`. -/
def handle (env : Env) (args : List String) : Except String GenState :=
  if args.length < 3 then
    Except.error "Usage: create_oa_submissions <COURSE_ID> <ITEM_ID> <NUM_SUBMISSIONS>"
  else
    let course_id := args.getD 0 ""
    let item_id := args.getD 1 ""
    match pyInt (args.getD 2 "") with
    | none => Except.error "Number of submissions must be an integer"
    | some num_submissions =>
      Except.ok (runSubmissions env course_id item_id num_submissions.toNat)

/-!
## Staff-area permission decorators (`staff_area_mixin.py`)
-/

/-- The xblock attributes the decorators consult; `tr` models `xblock._`. -/
structure OAXBlock where
  is_admin : Bool
  is_course_staff : Bool
  in_studio_preview : Bool
  tr : String → String

/-- A wrapped handler's observable outcome: the handler body's own result,
the dict `{'success': False, 'msg': msg}`, or `xblock.render_error(msg)`. -/
inductive HandlerResponse (α : Type) where
  | handled (a : α)
  | failDict (msg : String)
  | renderedError (msg : String)
deriving DecidableEq, Repr

/-- Embedding of `require_global_admin(error_key)` applied to a handler `func`: if the
xblock user is not a global admin or is in studio preview, look the error
message up and return the failure dict without calling `func`; otherwise call
`func`.  `Except.error` models the `KeyError` a bad `error_key` raises. -/
def require_global_admin {α : Type} (error_key : String) (func : OAXBlock → α)
    (xblock : OAXBlock) : Except String (HandlerResponse α) :=
  let permission_errors : StrDict :=
    [("SCHEDULE_TRAINING", xblock.tr "You do not have permission to schedule training"),
     ("RESCHEDULE_TASKS", xblock.tr "You do not have permission to reschedule tasks.")]
  if !xblock.is_admin || xblock.in_studio_preview then
    match dictLookup permission_errors error_key with
    | some msg => Except.ok (HandlerResponse.failDict msg)
    | none => Except.error error_key
  else
    Except.ok (HandlerResponse.handled (func xblock))

/-- Embedding of `require_course_staff(error_key, with_json_handler)` applied to a handler
`func`: a non-staff user of a JSON handler gets the failure dict; otherwise a
non-staff user or a studio preview gets `render_error`; otherwise `func` runs. -/
def require_course_staff {α : Type} (error_key : String) (with_json_handler : Bool)
    (func : OAXBlock → α) (xblock : OAXBlock) : Except String (HandlerResponse α) :=
  let permission_errors : StrDict :=
    [("STAFF_AREA", xblock.tr "You do not have permission to access the ORA staff area"),
     ("STUDENT_INFO", xblock.tr "You do not have permission to access ORA learner information."),
     ("STUDENT_GRADE", xblock.tr "You do not have permission to access ORA staff grading.")]
  if !xblock.is_course_staff && with_json_handler then
    match dictLookup permission_errors error_key with
    | some msg => Except.ok (HandlerResponse.failDict msg)
    | none => Except.error error_key
  else if !xblock.is_course_staff || xblock.in_studio_preview then
    match dictLookup permission_errors error_key with
    | some msg => Except.ok (HandlerResponse.renderedError msg)
    | none => Except.error error_key
  else
    Except.ok (HandlerResponse.handled (func xblock))

/-!
## Trace observations

Spec-side measuring functions over the event trace; these do not alter the
embedding, they only read it.
-/

/-- Is this event a `sub_api.create_submission` call? -/
def isCreateSubmission : Event → Bool
  | Event.createSubmission _ _ => true
  | _ => false

/-- Is this event a `workflow_api.create_workflow` call? -/
def isCreateWorkflow : Event → Bool
  | Event.createWorkflow _ _ => true
  | _ => false

/-- Is this event a `peer_api.create_peer_workflow_item` call? -/
def isCreatePeerWorkflowItem : Event → Bool
  | Event.createPeerWorkflowItem _ _ => true
  | _ => false

/-- Is this event a `peer_api.create_assessment` call? -/
def isCreatePeerAssessment : Event → Bool
  | Event.createPeerAssessment _ _ _ _ _ _ _ => true
  | _ => false

/-- Is this event a `self_api.create_assessment` call? -/
def isCreateSelfAssessment : Event → Bool
  | Event.createSelfAssessment _ _ _ _ => true
  | _ => false

/-- The student items of the submissions created in a trace, in creation
order; the submission with UUID `u` is entry `u` of this list. -/
def subItems (t : List Event) : List StudentItem :=
  t.filterMap (fun e =>
    match e with
    | Event.createSubmission it _ => some it
    | _ => none)

/-- Walk a trace left to right keeping the list `acc` of student items whose
submissions exist so far; check that every peer assessment's scorer submission
UUID refers to an already-created submission whose student item carries the
assessment's scorer id. -/
def subBeforePAAux (acc : List StudentItem) : List Event → Bool
  | [] => true
  | e :: rest =>
    match e with
    | Event.createSubmission it _ => subBeforePAAux (acc ++ [it]) rest
    | Event.createPeerAssessment u sid _ _ _ _ _ =>
      (match acc.get? u with
       | some it => it.student_id = sid
       | none => false) && subBeforePAAux acc rest
    | _ => subBeforePAAux acc rest

/-- Every peer assessment in the trace is preceded by the creation of its
scorer's submission. -/
def subBeforePA (t : List Event) : Bool := subBeforePAAux [] t

/-- The student item of the k-th primary submission. -/
def primaryItem (env : Env) (course_id item_id : String) (k : Nat) : StudentItem :=
  { student_id := (env.uuidHex k).take 10, course_id := course_id,
    item_id := item_id, item_type := "openassessment" }

/-- The student item of synthetic scorer `j` (the same for every primary
submission of a run). -/
def scorerItem (course_id item_id : String) (j : Nat) : StudentItem :=
  { student_id := "test_" ++ toString j, course_id := course_id,
    item_id := item_id, item_type := "openassessment" }

/-!
## Closed-form lemmas for the generator's operations
-/

/-- Unfolding of `List.range 3`. -/
theorem range_three : List.range 3 = [0, 1, 2] := rfl

/-- Unfolding of `List.range 5`. -/
theorem range_five : List.range 5 = [0, 1, 2, 3, 4] := rfl

/-- Closed form of `_create_dummy_submission`: it returns the next fresh
UUID and appends exactly the submission, workflow and requirements events. -/
theorem create_dummy_submission_eq (env : Env) (it : StudentItem) (s : GenState) :
    create_dummy_submission env it s =
      (s.subCtr,
       { trace := s.trace ++
           [Event.createSubmission it (env.text s.textCtr),
            Event.createWorkflow s.subCtr STEPS,
            Event.updateFromAssessments s.subCtr peerRequirements],
         student_items := s.student_items,
         subCtr := s.subCtr + 1,
         textCtr := s.textCtr + 1 }) := by
  cases s
  simp [create_dummy_submission, emit, getText]

/-- The rubric/options pair of a `_dummy_rubric` call depends only on the
oracle, the call's word-list index and the randomness counter. -/
def iterRubric (env : Env) (widx tc : Nat) : Rubric × StrDict :=
  (dummy_rubric env widx
    { trace := [], student_items := [], subCtr := 0, textCtr := tc }).1

/-- The function `_dummy_rubric` returns `iterRubric` at the current randomness counter. -/
theorem dummy_rubric_fst (env : Env) (widx : Nat) (s : GenState) :
    (dummy_rubric env widx s).1 = iterRubric env widx s.textCtr := rfl

/-- The function `_dummy_rubric` issues no service calls and consumes exactly 30 random
texts (5 prompts and 25 explanations). -/
theorem dummy_rubric_snd (env : Env) (widx : Nat) (s : GenState) :
    (dummy_rubric env widx s).2 = { s with textCtr := s.textCtr + 30 } := by
  cases s
  simp [dummy_rubric, getText, Command.NUM_CRITERIA, Command.NUM_OPTIONS,
    range_five]

/-- The 18 service calls issued by one iteration of `Command.handle`'s main
loop, given the iteration number `k`, the number `sc` of submissions created
before the iteration, and the randomness counter `tc` at its start. -/
def iterEvents (env : Env) (course_id item_id : String) (k sc tc : Nat) :
    List Event :=
  let pr := iterRubric env k (tc + 1)
  let prim := primaryItem env course_id item_id k
  [Event.createSubmission prim (env.text tc),
   Event.createWorkflow sc STEPS,
   Event.updateFromAssessments sc peerRequirements,
   Event.createSubmission (scorerItem course_id item_id 0) (env.text (tc + 31)),
   Event.createWorkflow (sc + 1) STEPS,
   Event.updateFromAssessments (sc + 1) peerRequirements,
   Event.createPeerWorkflowItem (sc + 1) sc,
   Event.createPeerAssessment (sc + 1) ("test_" ++ toString 0) pr.2 []
     (env.text (tc + 32)) pr.1 3,
   Event.createSubmission (scorerItem course_id item_id 1) (env.text (tc + 33)),
   Event.createWorkflow (sc + 2) STEPS,
   Event.updateFromAssessments (sc + 2) peerRequirements,
   Event.createPeerWorkflowItem (sc + 2) sc,
   Event.createPeerAssessment (sc + 2) ("test_" ++ toString 1) pr.2 []
     (env.text (tc + 34)) pr.1 3,
   Event.createSubmission (scorerItem course_id item_id 2) (env.text (tc + 35)),
   Event.createWorkflow (sc + 3) STEPS,
   Event.updateFromAssessments (sc + 3) peerRequirements,
   Event.createPeerWorkflowItem (sc + 3) sc,
   Event.createPeerAssessment (sc + 3) ("test_" ++ toString 2) pr.2 []
     (env.text (tc + 36)) pr.1 3,
   Event.createSelfAssessment sc prim.student_id pr.2 pr.1]

/-- Closed form of one main-loop iteration: it appends `iterEvents`, records
the primary student item, creates 4 submissions and consumes 37 random
texts. -/
theorem handleIter_eq (env : Env) (course_id item_id : String) (s : GenState)
    (k : Nat) :
    handleIter env course_id item_id s k =
      { trace := s.trace ++ iterEvents env course_id item_id k s.subCtr s.textCtr,
        student_items := s.student_items ++ [primaryItem env course_id item_id k],
        subCtr := s.subCtr + 4,
        textCtr := s.textCtr + 37 } := by
  cases s
  simp [handleIter, iterEvents, create_dummy_submission_eq, dummy_rubric_fst,
    dummy_rubric_snd, Command.NUM_PEER_ASSESSMENTS, range_three, emit, getText,
    primaryItem, scorerItem, Nat.add_assoc]

/-- Unfold one iteration of the main loop. -/
theorem runSubmissions_succ (env : Env) (course_id item_id : String) (n : Nat) :
    runSubmissions env course_id item_id (n + 1) =
      handleIter env course_id item_id (runSubmissions env course_id item_id n) n := by
  simp [runSubmissions, List.range_succ]

/-- A run of 0 submissions does nothing. -/
theorem runSubmissions_zero (env : Env) (course_id item_id : String) :
    runSubmissions env course_id item_id 0 = initState := rfl

/-- Number of `create_submission` calls in a trace. -/
def countSubmissions (t : List Event) : Nat := t.countP isCreateSubmission

/-- Number of `create_workflow` calls in a trace. -/
def countWorkflows (t : List Event) : Nat := t.countP isCreateWorkflow

/-- Number of `create_peer_workflow_item` calls in a trace. -/
def countPeerWorkflowItems (t : List Event) : Nat := t.countP isCreatePeerWorkflowItem

/-- Number of `peer_api.create_assessment` calls in a trace. -/
def countPeerAssessments (t : List Event) : Nat := t.countP isCreatePeerAssessment

/-- Number of `self_api.create_assessment` calls in a trace. -/
def countSelfAssessments (t : List Event) : Nat := t.countP isCreateSelfAssessment

/-- One loop iteration makes 4 submission-creation calls. -/
theorem countSubmissions_iter (env : Env) (c i : String) (k sc tc : Nat) :
    countSubmissions (iterEvents env c i k sc tc) = 4 := by
  simp [iterEvents, countSubmissions, isCreateSubmission]

/-- One loop iteration makes 4 workflow-creation calls. -/
theorem countWorkflows_iter (env : Env) (c i : String) (k sc tc : Nat) :
    countWorkflows (iterEvents env c i k sc tc) = 4 := by
  simp [iterEvents, countWorkflows, isCreateWorkflow]

/-- One loop iteration makes 3 peer-workflow-item calls. -/
theorem countPeerWorkflowItems_iter (env : Env) (c i : String) (k sc tc : Nat) :
    countPeerWorkflowItems (iterEvents env c i k sc tc) = 3 := by
  simp [iterEvents, countPeerWorkflowItems, isCreatePeerWorkflowItem]

/-- One loop iteration makes 3 peer-assessment calls. -/
theorem countPeerAssessments_iter (env : Env) (c i : String) (k sc tc : Nat) :
    countPeerAssessments (iterEvents env c i k sc tc) = 3 := by
  simp [iterEvents, countPeerAssessments, isCreatePeerAssessment]

/-- One loop iteration makes 1 self-assessment call. -/
theorem countSelfAssessments_iter (env : Env) (c i : String) (k sc tc : Nat) :
    countSelfAssessments (iterEvents env c i k sc tc) = 1 := by
  simp [iterEvents, countSelfAssessments, isCreateSelfAssessment]

/-- Counting submission calls distributes over trace concatenation. -/
theorem countSubmissions_append (t1 t2 : List Event) :
    countSubmissions (t1 ++ t2) = countSubmissions t1 + countSubmissions t2 := by
  simp [countSubmissions, List.countP_append]

/-- Counting workflow calls distributes over trace concatenation. -/
theorem countWorkflows_append (t1 t2 : List Event) :
    countWorkflows (t1 ++ t2) = countWorkflows t1 + countWorkflows t2 := by
  simp [countWorkflows, List.countP_append]

/-- Counting peer-workflow-item calls distributes over trace concatenation. -/
theorem countPeerWorkflowItems_append (t1 t2 : List Event) :
    countPeerWorkflowItems (t1 ++ t2) =
      countPeerWorkflowItems t1 + countPeerWorkflowItems t2 := by
  simp [countPeerWorkflowItems, List.countP_append]

/-- Counting peer-assessment calls distributes over trace concatenation. -/
theorem countPeerAssessments_append (t1 t2 : List Event) :
    countPeerAssessments (t1 ++ t2) =
      countPeerAssessments t1 + countPeerAssessments t2 := by
  simp [countPeerAssessments, List.countP_append]

/-- Counting self-assessment calls distributes over trace concatenation. -/
theorem countSelfAssessments_append (t1 t2 : List Event) :
    countSelfAssessments (t1 ++ t2) =
      countSelfAssessments t1 + countSelfAssessments t2 := by
  simp [countSelfAssessments, List.countP_append]

/-- C1: a run over `num_submissions = n` makes exactly `n * (1 + 3)`
submission-creation calls (one primary plus `NUM_PEER_ASSESSMENTS = 3` scorer
submissions per primary), one workflow-creation call per submission created,
`n * 3` peer-workflow-item calls, `n * 3` peer-assessment calls, and `n`
self-assessment calls. -/
theorem call_counts_per_run (env : Env) (course_id item_id : String) (n : Nat) :
    countSubmissions (runSubmissions env course_id item_id n).trace =
      n * (1 + Command.NUM_PEER_ASSESSMENTS) ∧
    countWorkflows (runSubmissions env course_id item_id n).trace =
      countSubmissions (runSubmissions env course_id item_id n).trace ∧
    countPeerWorkflowItems (runSubmissions env course_id item_id n).trace =
      n * Command.NUM_PEER_ASSESSMENTS ∧
    countPeerAssessments (runSubmissions env course_id item_id n).trace =
      n * Command.NUM_PEER_ASSESSMENTS ∧
    countSelfAssessments (runSubmissions env course_id item_id n).trace = n := by
  induction n with
  | zero =>
    simp [runSubmissions_zero, initState, countSubmissions, countWorkflows,
      countPeerWorkflowItems, countPeerAssessments, countSelfAssessments]
  | succ m ih =>
    obtain ⟨h1, h2, h3, h4, h5⟩ := ih
    rw [runSubmissions_succ, handleIter_eq]
    simp only [countSubmissions_append, countWorkflows_append,
      countPeerWorkflowItems_append, countPeerAssessments_append,
      countSelfAssessments_append, countSubmissions_iter, countWorkflows_iter,
      countPeerWorkflowItems_iter, countPeerAssessments_iter,
      countSelfAssessments_iter, h1, h2, h3, h4, h5]
    simp only [Command.NUM_PEER_ASSESSMENTS, true_and, and_true] at h1 h2 h3 h4 h5 ⊢
    omega

/-- C3: `_create_dummy_submission` performs, in order, exactly one
submission creation, one workflow creation over the step list
`["peer", "self"]`, and one requirements update to
`{'peer': {'must_grade': 1, 'must_be_graded_by': 1}}`, and returns the new
submission's UUID (the workflow creation precedes the requirements update in
the appended trace). -/
theorem create_dummy_submission_steps (env : Env) (student_item : StudentItem)
    (s : GenState) :
    (create_dummy_submission env student_item s).1 = s.subCtr ∧
    (create_dummy_submission env student_item s).2.trace =
      s.trace ++
        [Event.createSubmission student_item (env.text s.textCtr),
         Event.createWorkflow s.subCtr STEPS,
         Event.updateFromAssessments s.subCtr peerRequirements] ∧
    STEPS = ["peer", "self"] ∧
    peerRequirements = [("peer", { must_grade := 1, must_be_graded_by := 1 })] := by
  refine ⟨?_, ?_, rfl, rfl⟩ <;> simp [create_dummy_submission_eq]

/-- The accumulated `_student_items` list after `n` iterations is the list of
the `n` primary student items in creation order. -/
theorem student_items_run (env : Env) (course_id item_id : String) (n : Nat) :
    (runSubmissions env course_id item_id n).student_items =
      (List.range n).map (primaryItem env course_id item_id) := by
  induction n with
  | zero => rfl
  | succ m ih =>
    rw [runSubmissions_succ, handleIter_eq]
    simp [ih, List.range_succ]

/-- C6: after a run over `n ≥ 0`, the `student_items` list has exactly `n`
entries, one per primary submission in creation order; their `student_id`s
are distinct whenever the truncated uuids the oracle produced are distinct
(which `uuid4` guarantees up to hash collision); and with `n = 0` the list is
empty and no service call at all is made. -/
theorem primary_student_items (env : Env) (course_id item_id : String) (n : Nat) :
    (runSubmissions env course_id item_id n).student_items.length = n ∧
    (runSubmissions env course_id item_id n).student_items =
      (List.range n).map (primaryItem env course_id item_id) ∧
    ((∀ k1, k1 < n → ∀ k2, k2 < n →
        (env.uuidHex k1).take 10 = (env.uuidHex k2).take 10 → k1 = k2) →
      ((runSubmissions env course_id item_id n).student_items.map
          StudentItem.student_id).Nodup) ∧
    (n = 0 → (runSubmissions env course_id item_id n).student_items = [] ∧
      (runSubmissions env course_id item_id n).trace = []) := by
  refine ⟨?_, student_items_run env course_id item_id n, ?_, ?_⟩
  · rw [student_items_run]; simp
  · intro hinj
    rw [student_items_run, List.map_map]
    refine List.Nodup.map_on ?_ (List.nodup_range n)
    intro x hx y hy hxy
    simp only [Function.comp_apply, primaryItem] at hxy
    exact hinj x (List.mem_range.mp hx) y (List.mem_range.mp hy) hxy
  · rintro rfl
    exact ⟨rfl, rfl⟩

/-- C6 witness: a concrete run of 2 submissions with a concrete oracle. -/
def sampleEnv : Env :=
  { uuidHex := fun k => toString k ++ "0123456789abcdef",
    text := fun n => "lorem " ++ toString n,
    words := fun k i => "word" ++ toString k ++ "x" ++ toString i }

theorem primary_student_items_witness :
    (runSubmissions sampleEnv "course-1" "item-1" 2).student_items.length = 2 ∧
    ((runSubmissions sampleEnv "course-1" "item-1" 2).student_items.map
      StudentItem.student_id).Nodup ∧
    (runSubmissions sampleEnv "course-1" "item-1" 0).student_items = [] ∧
    (runSubmissions sampleEnv "course-1" "item-1" 0).trace = [] := by
  have h := primary_student_items sampleEnv "course-1" "item-1" 2
  have h0 := primary_student_items sampleEnv "course-1" "item-1" 0
  exact ⟨h.1, h.2.2.1 (by decide), h0.2.2.2 rfl⟩

/-- The map `subItems` distributes over trace concatenation. -/
theorem subItems_append (t1 t2 : List Event) :
    subItems (t1 ++ t2) = subItems t1 ++ subItems t2 := by
  simp [subItems]

/-- Splitting the submission-before-peer-assessment check at a trace
concatenation: the second half is checked with the submissions of the first
half added to the record. -/
theorem subBeforePAAux_append (t1 t2 : List Event) (acc : List StudentItem) :
    subBeforePAAux acc (t1 ++ t2) =
      (subBeforePAAux acc t1 && subBeforePAAux (acc ++ subItems t1) t2) := by
  induction t1 generalizing acc with
  | nil => simp [subBeforePAAux, subItems]
  | cons e rest ih =>
    cases e <;>
      simp [subBeforePAAux, subItems, ih, List.append_assoc, Bool.and_assoc]

/-- The four submissions one loop iteration creates: the primary first, then
the three synthetic scorers. -/
theorem subItems_iterEvents (env : Env) (c i : String) (k sc tc : Nat) :
    subItems (iterEvents env c i k sc tc) =
      [primaryItem env c i k, scorerItem c i 0, scorerItem c i 1, scorerItem c i 2] := by
  simp [iterEvents, subItems]

/-- One loop iteration passes the submission-before-peer-assessment check
when started with any record of exactly `acc.length` existing submissions. -/
theorem subBeforePAAux_iterEvents (env : Env) (c i : String) (k tc : Nat)
    (acc : List StudentItem) :
    subBeforePAAux acc (iterEvents env c i k acc.length tc) = true := by
  simp [iterEvents, subBeforePAAux, scorerItem, List.append_assoc]
  refine ⟨?_, ?_, ?_⟩ <;>
  · rw [List.getElem_append_right (by omega)]
    simp

/-- Run invariant: the whole trace passes the submission-before-assessment
check, and the number of submissions created equals the submission counter. -/
theorem subBeforePA_run_aux (env : Env) (course_id item_id : String) (n : Nat) :
    subBeforePAAux [] (runSubmissions env course_id item_id n).trace = true ∧
    (subItems (runSubmissions env course_id item_id n).trace).length =
      (runSubmissions env course_id item_id n).subCtr := by
  induction n with
  | zero => exact ⟨rfl, rfl⟩
  | succ m ih =>
    obtain ⟨ih1, ih2⟩ := ih
    rw [runSubmissions_succ, handleIter_eq]
    dsimp only
    constructor
    · rw [subBeforePAAux_append, ih1, List.nil_append, ← ih2,
        subBeforePAAux_iterEvents]
      rfl
    · rw [subItems_append, subItems_iterEvents]
      simp [ih2]

/-- C4: in every run, each peer assessment's scorer already has a submission
on record when the assessment is created: walking the trace left to right,
every `createPeerAssessment` event's scorer submission UUID points at a
submission created strictly earlier in the trace, whose student item carries
the assessment's scorer id. -/
theorem peer_assessment_after_scorer_submission (env : Env)
    (course_id item_id : String) (n : Nat) :
    subBeforePA (runSubmissions env course_id item_id n).trace = true :=
  (subBeforePA_run_aux env course_id item_id n).1

/-- Inserting value `v` into a dict whose values are all `v` keeps all
values `v`. -/
theorem dictInsert_allVals (d : StrDict) (k v : String)
    (h : ∀ p ∈ d, p.2 = v) : ∀ p ∈ dictInsert d k v, p.2 = v := by
  intro p hp
  unfold dictInsert at hp
  split at hp
  · obtain ⟨q, hq, rfl⟩ := List.mem_map.mp hp
    by_cases hqk : q.1 = k <;> simp [hqk, h q hq]
  · rcases List.mem_append.mp hp with h1 | h1
    · exact h p h1
    · simp only [List.mem_singleton] at h1
      subst h1
      rfl

/-- After inserting key `k`, some entry has key `k`. -/
theorem dictInsert_hasKey (d : StrDict) (k v : String) :
    ∃ p ∈ dictInsert d k v, p.1 = k := by
  unfold dictInsert
  split
  · rename_i h
    obtain ⟨q, hq, hqk⟩ := List.any_eq_true.mp h
    refine ⟨(k, v), List.mem_map.mpr ⟨q, hq, ?_⟩, rfl⟩
    simp [of_decide_eq_true hqk]
  · exact ⟨(k, v), List.mem_append.mpr (Or.inr (by simp)), rfl⟩

/-- Inserting preserves presence of every existing key. -/
theorem dictInsert_preservesKey (d : StrDict) (k v key : String)
    (h : ∃ p ∈ d, p.1 = key) : ∃ p ∈ dictInsert d k v, p.1 = key := by
  obtain ⟨q, hq, hqk⟩ := h
  unfold dictInsert
  split
  · by_cases hk : q.1 = k
    · exact ⟨(k, v), List.mem_map.mpr ⟨q, hq, by simp [hk]⟩, by rw [← hqk, hk]⟩
    · exact ⟨q, List.mem_map.mpr ⟨q, hq, by simp [hk]⟩, hqk⟩
  · exact ⟨q, List.mem_append.mpr (Or.inl hq), hqk⟩

/-- Looking up a present key in a dict whose values are all `v` yields `v`. -/
theorem dictLookup_allVals (d : StrDict) (key v : String)
    (hall : ∀ p ∈ d, p.2 = v) (hkey : ∃ p ∈ d, p.1 = key) :
    dictLookup d key = some v := by
  obtain ⟨q, hq, hqk⟩ := hkey
  unfold dictLookup
  have hsome : (d.find? (fun p => p.1 = key)).isSome := by
    rw [List.find?_isSome]
    exact ⟨q, hq, by simp [hqk]⟩
  obtain ⟨r, hr⟩ := Option.isSome_iff_exists.mp hsome
  rw [hr]
  have := List.find?_some hr
  simp [hall r (List.mem_of_find?_eq_some hr)]

/-- Looking up any of the five criterion names in the generated
`options_selected` dict yields the name of option 0 (`words 0`), whether or
not the five names collide. -/
theorem chain_lookup (w : Nat → String) (i : Nat) (hi : i < 5) :
    dictLookup (dictInsert (dictInsert (dictInsert (dictInsert
        (dictInsert [] (w 0) (w 0)) (w 1) (w 0)) (w 2) (w 0)) (w 3) (w 0))
        (w 4) (w 0)) (w i) = some (w 0) := by
  apply dictLookup_allVals
  · apply dictInsert_allVals
    apply dictInsert_allVals
    apply dictInsert_allVals
    apply dictInsert_allVals
    apply dictInsert_allVals
    intro p hp
    cases hp
  · interval_cases i
    · exact dictInsert_preservesKey _ _ _ _ (dictInsert_preservesKey _ _ _ _
        (dictInsert_preservesKey _ _ _ _ (dictInsert_preservesKey _ _ _ _
          (dictInsert_hasKey _ _ _))))
    · exact dictInsert_preservesKey _ _ _ _ (dictInsert_preservesKey _ _ _ _
        (dictInsert_preservesKey _ _ _ _ (dictInsert_hasKey _ _ _)))
    · exact dictInsert_preservesKey _ _ _ _ (dictInsert_preservesKey _ _ _ _
        (dictInsert_hasKey _ _ _))
    · exact dictInsert_preservesKey _ _ _ _ (dictInsert_hasKey _ _ _)
    · exact dictInsert_hasKey _ _ _

/-- C2: every rubric returned by `_dummy_rubric` has exactly 5 criteria,
each with exactly 5 options whose point values (and ordinals) are 0..4 in
order, and `options_selected` maps each criterion's name to the name of that
criterion's option 0, whose point value is 0. -/
theorem dummy_rubric_shape (env : Env) (widx : Nat) (s : GenState) :
    (dummy_rubric env widx s).1.1.criteria.length = Command.NUM_CRITERIA ∧
    ∀ c ∈ (dummy_rubric env widx s).1.1.criteria,
      c.options.length = Command.NUM_OPTIONS ∧
      c.options.map RubricOption.points = [0, 1, 2, 3, 4] ∧
      c.options.map RubricOption.order_num = [0, 1, 2, 3, 4] ∧
      ∃ o, c.options.get? 0 = some o ∧ o.points = 0 ∧
        dictLookup (dummy_rubric env widx s).1.2 c.name = some o.name := by
  obtain ⟨tr, si, sc, tc⟩ := s
  constructor
  · simp [dummy_rubric, getText, Command.NUM_CRITERIA, Command.NUM_OPTIONS,
      range_five]
  · intro c hc
    simp only [dummy_rubric, getText, Command.NUM_CRITERIA, Command.NUM_OPTIONS,
      range_five, List.foldl_cons, List.foldl_nil, List.nil_append,
      List.cons_append, List.getD_cons_zero, List.mem_cons,
      List.not_mem_nil, or_false] at hc ⊢
    rcases hc with rfl | rfl | rfl | rfl | rfl <;>
      refine ⟨rfl, rfl, rfl, _, rfl, rfl, ?_⟩
    · exact chain_lookup (env.words widx) 0 (by omega)
    · exact chain_lookup (env.words widx) 1 (by omega)
    · exact chain_lookup (env.words widx) 2 (by omega)
    · exact chain_lookup (env.words widx) 3 (by omega)
    · exact chain_lookup (env.words widx) 4 (by omega)

/-- C2 witness: the first criterion of a concretely generated rubric
satisfies the shape property. -/
theorem dummy_rubric_shape_witness :
    ((dummy_rubric sampleEnv 0 initState).1.1.criteria.getD 0
        ⟨"", "", 0, []⟩).options.length = Command.NUM_OPTIONS ∧
    ((dummy_rubric sampleEnv 0 initState).1.1.criteria.getD 0
        ⟨"", "", 0, []⟩).options.map RubricOption.points = [0, 1, 2, 3, 4] ∧
    ((dummy_rubric sampleEnv 0 initState).1.1.criteria.getD 0
        ⟨"", "", 0, []⟩).options.map RubricOption.order_num = [0, 1, 2, 3, 4] ∧
    ∃ o, ((dummy_rubric sampleEnv 0 initState).1.1.criteria.getD 0
        ⟨"", "", 0, []⟩).options.get? 0 = some o ∧ o.points = 0 ∧
      dictLookup (dummy_rubric sampleEnv 0 initState).1.2
        ((dummy_rubric sampleEnv 0 initState).1.1.criteria.getD 0
          ⟨"", "", 0, []⟩).name = some o.name :=
  (dummy_rubric_shape sampleEnv 0 initState).2 _ (by decide)

/-- C7: within one main-loop iteration, every peer-assessment call and the
self-assessment call carry exactly the `(rubric, options_selected)` pair
returned by that iteration's `_dummy_rubric` call (made on the state right
after the primary submission); all four assessment events hold the identical
rubric value and the identical options value. -/
theorem assessments_share_rubric (env : Env) (course_id item_id : String)
    (s : GenState) (k : Nat) :
    ∀ e ∈ (handleIter env course_id item_id s k).trace.drop s.trace.length,
      (∀ u sid opts fb ofb rub req,
        e = Event.createPeerAssessment u sid opts fb ofb rub req →
          rub = (dummy_rubric env k (create_dummy_submission env
              (primaryItem env course_id item_id k) s).2).1.1 ∧
          opts = (dummy_rubric env k (create_dummy_submission env
              (primaryItem env course_id item_id k) s).2).1.2) ∧
      (∀ u sid opts rub,
        e = Event.createSelfAssessment u sid opts rub →
          rub = (dummy_rubric env k (create_dummy_submission env
              (primaryItem env course_id item_id k) s).2).1.1 ∧
          opts = (dummy_rubric env k (create_dummy_submission env
              (primaryItem env course_id item_id k) s).2).1.2) := by
  have hdrop : (handleIter env course_id item_id s k).trace.drop s.trace.length =
      iterEvents env course_id item_id k s.subCtr s.textCtr := by
    rw [handleIter_eq]
    exact List.drop_left _ _
  intro e he
  rw [hdrop] at he
  simp only [iterEvents, List.mem_cons, List.not_mem_nil, or_false] at he
  rcases he with rfl | rfl | rfl | rfl | rfl | rfl | rfl | rfl | rfl | rfl |
    rfl | rfl | rfl | rfl | rfl | rfl | rfl | rfl | rfl <;>
    refine ⟨fun u sid opts fb ofb rub req heq => ?_,
            fun u sid opts rub heq => ?_⟩ <;>
    first
      | exact Event.noConfusion heq
      | (cases heq
         exact ⟨by simp [dummy_rubric_fst, create_dummy_submission_eq],
                by simp [dummy_rubric_fst, create_dummy_submission_eq]⟩)

/-- C7 witness: in a concrete run, the first peer-assessment event carries
exactly the concrete `_dummy_rubric` pair. -/
theorem assessments_share_rubric_witness :
    Event.createPeerAssessment 1 ("test_" ++ toString 0)
        (iterRubric sampleEnv 0 1).2 [] (sampleEnv.text 32)
        (iterRubric sampleEnv 0 1).1 3 ∈
      (handleIter sampleEnv "course-1" "item-1" initState 0).trace.drop
        initState.trace.length ∧
    (iterRubric sampleEnv 0 1).1 =
      (dummy_rubric sampleEnv 0 (create_dummy_submission sampleEnv
        (primaryItem sampleEnv "course-1" "item-1" 0) initState).2).1.1 ∧
    (iterRubric sampleEnv 0 1).2 =
      (dummy_rubric sampleEnv 0 (create_dummy_submission sampleEnv
        (primaryItem sampleEnv "course-1" "item-1" 0) initState).2).1.2 := by
  have hmem : Event.createPeerAssessment 1 ("test_" ++ toString 0)
      (iterRubric sampleEnv 0 1).2 [] (sampleEnv.text 32)
      (iterRubric sampleEnv 0 1).1 3 ∈
      (handleIter sampleEnv "course-1" "item-1" initState 0).trace.drop
        initState.trace.length := by decide
  refine ⟨hmem, ?_⟩
  exact (assessments_share_rubric sampleEnv "course-1" "item-1" initState 0
    (Event.createPeerAssessment 1 ("test_" ++ toString 0)
      (iterRubric sampleEnv 0 1).2 [] (sampleEnv.text 32)
      (iterRubric sampleEnv 0 1).1 3) hmem).1 1 ("test_" ++ toString 0)
    (iterRubric sampleEnv 0 1).2 [] (sampleEnv.text 32)
    (iterRubric sampleEnv 0 1).1 3 rfl

/-- Every peer-assessment event of one loop iteration carries an empty
per-criterion feedback dict and `NUM_PEER_ASSESSMENTS` as required count. -/
theorem iterEvents_pa_args (env : Env) (c i : String) (k sc tc : Nat) :
    ∀ e ∈ iterEvents env c i k sc tc, ∀ u sid opts fb ofb rub req,
      e = Event.createPeerAssessment u sid opts fb ofb rub req →
        fb = [] ∧ req = Command.NUM_PEER_ASSESSMENTS := by
  intro e he
  simp only [iterEvents, List.mem_cons, List.not_mem_nil, or_false] at he
  rcases he with rfl | rfl | rfl | rfl | rfl | rfl | rfl | rfl | rfl | rfl |
    rfl | rfl | rfl | rfl | rfl | rfl | rfl | rfl | rfl <;>
    intro u sid opts fb ofb rub req heq <;>
    first
      | exact Event.noConfusion heq
      | (cases heq; exact ⟨rfl, rfl⟩)

/-- C8: every peer-assessment call of a run passes an empty per-criterion
feedback dict and the constant `NUM_PEER_ASSESSMENTS = 3` as the required
number of assessments, and each iteration makes exactly
`NUM_PEER_ASSESSMENTS` peer-assessment calls, so the passed count equals the
peer-scorer loop bound. -/
theorem peer_assessment_arguments (env : Env) (course_id item_id : String)
    (n : Nat) :
    (∀ e ∈ (runSubmissions env course_id item_id n).trace,
      ∀ u sid opts fb ofb rub req,
        e = Event.createPeerAssessment u sid opts fb ofb rub req →
          fb = [] ∧ req = Command.NUM_PEER_ASSESSMENTS) ∧
    (∀ s k, countPeerAssessments (handleIter env course_id item_id s k).trace =
      countPeerAssessments s.trace + Command.NUM_PEER_ASSESSMENTS) := by
  constructor
  · induction n with
    | zero => intro e he; cases he
    | succ m ih =>
      rw [runSubmissions_succ, handleIter_eq]
      dsimp only
      intro e he
      rcases List.mem_append.mp he with h1 | h1
      · exact ih e h1
      · exact iterEvents_pa_args env course_id item_id m _ _ e h1
  · intro s k
    rw [handleIter_eq]
    dsimp only
    rw [countPeerAssessments_append, countPeerAssessments_iter]
    rfl

/-- C8 witness: the first peer-assessment event of a concrete run. -/
theorem peer_assessment_arguments_witness :
    Event.createPeerAssessment 1 ("test_" ++ toString 0)
        (iterRubric sampleEnv 0 1).2 [] (sampleEnv.text 32)
        (iterRubric sampleEnv 0 1).1 3 ∈
      (runSubmissions sampleEnv "course-1" "item-1" 1).trace ∧
    ([] : StrDict) = [] ∧ 3 = Command.NUM_PEER_ASSESSMENTS := by
  have hmem : Event.createPeerAssessment 1 ("test_" ++ toString 0)
      (iterRubric sampleEnv 0 1).2 [] (sampleEnv.text 32)
      (iterRubric sampleEnv 0 1).1 3 ∈
      (runSubmissions sampleEnv "course-1" "item-1" 1).trace := by decide
  refine ⟨hmem, ?_⟩
  exact (peer_assessment_arguments sampleEnv "course-1" "item-1" 1).1
    (Event.createPeerAssessment 1 ("test_" ++ toString 0)
      (iterRubric sampleEnv 0 1).2 [] (sampleEnv.text 32)
      (iterRubric sampleEnv 0 1).1 3) hmem 1 ("test_" ++ toString 0)
    (iterRubric sampleEnv 0 1).2 [] (sampleEnv.text 32)
    (iterRubric sampleEnv 0 1).1 3 rfl

/-- Number of `create_submission` calls for one specific student item. -/
def countSubFor (it : StudentItem) (t : List Event) : Nat :=
  t.countP (fun e =>
    match e with
    | Event.createSubmission itc _ => itc = it
    | _ => false)

/-- Scorer id 0 as a literal. -/
theorem testStr_0 : "test_" ++ toString 0 = "test_0" := rfl

/-- Scorer id 1 as a literal. -/
theorem testStr_1 : "test_" ++ toString 1 = "test_1" := rfl

/-- Scorer id 2 as a literal. -/
theorem testStr_2 : "test_" ++ toString 2 = "test_2" := rfl

/-- One loop iteration creates exactly one submission for scorer `j` when
the primary's truncated uuid is not scorer `j`'s id. -/
theorem countSubFor_scorer_iter (env : Env) (c i : String) (k sc tc j : Nat)
    (hj : j < 3) (hne : (env.uuidHex k).take 10 ≠ "test_" ++ toString j) :
    countSubFor (scorerItem c i j) (iterEvents env c i k sc tc) = 1 := by
  interval_cases j <;>
    simp only [testStr_0, testStr_1, testStr_2] at hne ⊢ <;>
    simp [iterEvents, countSubFor, scorerItem, primaryItem,
      StudentItem.mk.injEq, testStr_0, testStr_1, testStr_2, hne]

/-- C9: each synthetic scorer's student item copies the primary's
`course_id`, `item_id` and `item_type` and differs only in `student_id`,
which is `"test_j"` for `j` in 0..2; the same three scorer items recur in
every iteration, so across a run of `n` primaries each scorer id has
exactly `n` submissions (granted the truncated primary uuids avoid the
`test_j` ids, as `uuid4` hex strings do). -/
theorem scorer_item_reuse (env : Env) (course_id item_id : String) (n : Nat) :
    (∀ k sc tc, subItems (iterEvents env course_id item_id k sc tc) =
      [primaryItem env course_id item_id k, scorerItem course_id item_id 0,
       scorerItem course_id item_id 1, scorerItem course_id item_id 2]) ∧
    (∀ k j, (scorerItem course_id item_id j).course_id =
        (primaryItem env course_id item_id k).course_id ∧
      (scorerItem course_id item_id j).item_id =
        (primaryItem env course_id item_id k).item_id ∧
      (scorerItem course_id item_id j).item_type =
        (primaryItem env course_id item_id k).item_type ∧
      (scorerItem course_id item_id j).student_id = "test_" ++ toString j) ∧
    ((∀ k, k < n → ∀ j, j < 3 →
        (env.uuidHex k).take 10 ≠ "test_" ++ toString j) →
      ∀ j, j < 3 →
        countSubFor (scorerItem course_id item_id j)
          (runSubmissions env course_id item_id n).trace = n) := by
  refine ⟨fun k sc tc => subItems_iterEvents env course_id item_id k sc tc,
    fun k j => ⟨rfl, rfl, rfl, rfl⟩, ?_⟩
  intro hne j hj
  induction n with
  | zero => rfl
  | succ m ih =>
    rw [runSubmissions_succ, handleIter_eq]
    dsimp only
    have hm : ∀ k, k < m → ∀ j, j < 3 →
        (env.uuidHex k).take 10 ≠ "test_" ++ toString j :=
      fun k hk => hne k (Nat.lt_succ_of_lt hk)
    rw [countSubFor, List.countP_append, ← countSubFor, ← countSubFor,
      ih hm, countSubFor_scorer_iter env course_id item_id m _ _ j hj
        (hne m (Nat.lt_succ_self m) j hj)]

/-- C5: with fewer than 3 positional arguments the command fails with the
usage error; with an unparseable third argument it fails with the integer
error; in both cases it returns an error before the main loop, so no state
(and hence no service call) is ever produced. -/
theorem handle_argument_errors (env : Env) (args : List String) :
    (args.length < 3 →
      handle env args = Except.error
        "Usage: create_oa_submissions <COURSE_ID> <ITEM_ID> <NUM_SUBMISSIONS>") ∧
    (3 ≤ args.length → pyInt (args.getD 2 "") = none →
      handle env args =
        Except.error "Number of submissions must be an integer") ∧
    ((args.length < 3 ∨ pyInt (args.getD 2 "") = none) →
      ∀ st, handle env args ≠ Except.ok st) := by
  have h1 : args.length < 3 →
      handle env args = Except.error
        "Usage: create_oa_submissions <COURSE_ID> <ITEM_ID> <NUM_SUBMISSIONS>" := by
    intro h
    simp [handle, h]
  have h2 : 3 ≤ args.length → pyInt (args.getD 2 "") = none →
      handle env args =
        Except.error "Number of submissions must be an integer" := by
    intro h hp
    simp only [List.getD, List.get?_eq_getElem?] at hp
    simp [handle, Nat.not_lt.mpr h, hp, List.getD]
  refine ⟨h1, h2, ?_⟩
  rintro (h | h) st hok
  · rw [h1 h] at hok
    exact Except.noConfusion hok
  · by_cases hlen : args.length < 3
    · rw [h1 hlen] at hok
      exact Except.noConfusion hok
    · rw [h2 (Nat.not_lt.mp hlen) h] at hok
      exact Except.noConfusion hok

/-- C5 witness: two concrete invocations, one with too few arguments and one
with a non-integer count, both failing with no state produced. -/
theorem handle_argument_errors_witness :
    handle sampleEnv ["course-1", "item-1"] = Except.error
      "Usage: create_oa_submissions <COURSE_ID> <ITEM_ID> <NUM_SUBMISSIONS>" ∧
    handle sampleEnv ["course-1", "item-1", "abc"] =
      Except.error "Number of submissions must be an integer" :=
  ⟨(handle_argument_errors sampleEnv ["course-1", "item-1"]).1 (by decide),
   (handle_argument_errors sampleEnv ["course-1", "item-1", "abc"]).2.1
     (by decide) (by decide)⟩

/-- C10: a handler wrapped in `require_global_admin` never runs when the
user is not a global admin or is in studio preview — the decorator's result
does not depend on the handler, equals the `{'success': False, 'msg': ...}`
dict for both keys the code uses, and is never the handler's own result;
likewise a handler wrapped in `require_course_staff` never runs when the
user is not course staff or is in studio preview — the result is
handler-independent, is a failure dict or a rendered error for the three
keys the code uses, and is never the handler's own result. -/
theorem decorators_deny_without_permission (α : Type) (xblock : OAXBlock) :
    ((!xblock.is_admin || xblock.in_studio_preview) = true →
      (∀ (error_key : String) (f g : OAXBlock → α),
        require_global_admin error_key f xblock =
          require_global_admin error_key g xblock) ∧
      (∀ f : OAXBlock → α,
        require_global_admin "SCHEDULE_TRAINING" f xblock =
          Except.ok (HandlerResponse.failDict
            (xblock.tr "You do not have permission to schedule training")) ∧
        require_global_admin "RESCHEDULE_TASKS" f xblock =
          Except.ok (HandlerResponse.failDict
            (xblock.tr "You do not have permission to reschedule tasks."))) ∧
      (∀ (error_key : String) (f : OAXBlock → α) (a : α),
        require_global_admin error_key f xblock ≠
          Except.ok (HandlerResponse.handled a))) ∧
    ((!xblock.is_course_staff || xblock.in_studio_preview) = true →
      (∀ (error_key : String) (wjh : Bool) (f g : OAXBlock → α),
        require_course_staff error_key wjh f xblock =
          require_course_staff error_key wjh g xblock) ∧
      (∀ (error_key : String) (wjh : Bool) (f : OAXBlock → α),
        (error_key = "STAFF_AREA" ∨ error_key = "STUDENT_INFO" ∨
            error_key = "STUDENT_GRADE") →
        ∃ msg, require_course_staff error_key wjh f xblock =
            Except.ok (HandlerResponse.failDict msg) ∨
          require_course_staff error_key wjh f xblock =
            Except.ok (HandlerResponse.renderedError msg)) ∧
      (∀ (error_key : String) (wjh : Bool) (f : OAXBlock → α) (a : α),
        require_course_staff error_key wjh f xblock ≠
          Except.ok (HandlerResponse.handled a))) := by
  obtain ⟨ia, ics, isp, tr⟩ := xblock
  constructor
  · intro h
    refine ⟨fun error_key f g => ?_, fun f => ⟨?_, ?_⟩, fun error_key f a => ?_⟩
    · simp [require_global_admin, h]
    · simp [require_global_admin, h, dictLookup]
    · simp [require_global_admin, h, dictLookup]
    · simp only [require_global_admin, h, if_true]
      cases hdl : dictLookup
          [("SCHEDULE_TRAINING", tr "You do not have permission to schedule training"),
           ("RESCHEDULE_TASKS", tr "You do not have permission to reschedule tasks.")]
          error_key <;> simp [hdl]
  · intro h
    refine ⟨fun error_key wjh f g => ?_, fun error_key wjh f hk => ?_,
      fun error_key wjh f a => ?_⟩
    · cases ics <;> cases isp <;> cases wjh <;>
        simp_all [require_course_staff]
    · cases ics <;> cases isp <;> cases wjh <;>
        rcases hk with rfl | rfl | rfl <;>
        simp_all [require_course_staff, dictLookup]
    · cases ics <;> cases isp <;> cases wjh <;>
        simp_all [require_course_staff] <;>
        (cases hdl : dictLookup
          [("STAFF_AREA", tr "You do not have permission to access the ORA staff area"),
           ("STUDENT_INFO", tr "You do not have permission to access ORA learner information."),
           ("STUDENT_GRADE", tr "You do not have permission to access ORA staff grading.")]
          error_key <;> simp [hdl])

/-- A concrete xblock with no permissions, in studio preview, with identity
translation. -/
def sampleXBlock : OAXBlock :=
  { is_admin := false, is_course_staff := false, in_studio_preview := true,
    tr := fun s => s }

/-- C10 witness: concrete denied invocations of both decorators. -/
theorem decorators_deny_without_permission_witness :
    require_global_admin "SCHEDULE_TRAINING" (fun _ => (0 : Nat)) sampleXBlock =
      Except.ok (HandlerResponse.failDict
        "You do not have permission to schedule training") ∧
    (∃ msg, require_course_staff "STAFF_AREA" false (fun _ => (0 : Nat)) sampleXBlock =
        Except.ok (HandlerResponse.failDict msg) ∨
      require_course_staff "STAFF_AREA" false (fun _ => (0 : Nat)) sampleXBlock =
        Except.ok (HandlerResponse.renderedError msg)) := by
  have h := decorators_deny_without_permission Nat sampleXBlock
  exact ⟨((h.1 rfl).2.1 (fun _ => 0)).1,
         (h.2 rfl).2.1 "STAFF_AREA" false (fun _ => 0) (Or.inl rfl)⟩

/-- C9 witness: in a concrete 1-submission run, scorer 0's item is submitted
exactly once. -/
theorem scorer_item_reuse_witness :
    countSubFor (scorerItem "course-1" "item-1" 0)
      (runSubmissions sampleEnv "course-1" "item-1" 1).trace = 1 :=
  (scorer_item_reuse sampleEnv "course-1" "item-1" 1).2.2 (by decide) 0
    (by decide)
